import Mathlib

/-!
Verification of the moltworker gateway supervisor and durable sync engine.

The TypeScript source is embedded shallowly: each HTTP handler or engine
function becomes a pure Lean function over an explicit description of the
subprocess outcomes it observes (stdout, stderr, exit code, thrown errors),
and returns both its structured response and, where a claim needs it, the
trace of external actions it started.  JavaScript truthiness on optional
strings, the case-insensitive substring checks, and the regular-expression
tests used by the code are modelled by explicit executable functions.
-/

namespace Moltworker

/-- JavaScript truthiness of an optional string: undefined and the empty
string are falsy, every other string is truthy. -/
def truthy : Option String → Bool
  | none => false
  | some s => !(s == "")

/-- Whether the first character list leads the second one. -/
def leadsWith : List Char → List Char → Bool
  | [], _ => true
  | _ :: _, [] => false
  | a :: as, b :: bs => (a == b) && leadsWith as bs

/-- Whether the first character list occurs contiguously in the second. -/
def occursIn (pat : List Char) : List Char → Bool
  | [] => leadsWith pat []
  | b :: bs => leadsWith pat (b :: bs) || occursIn pat bs

/-- Substring containment, the model of the JavaScript String.includes. -/
def strIncludes (s pat : String) : Bool :=
  occursIn pat.data s.data

/-- The JavaScript test o?.includes(pat): undefined stdout is falsy. -/
def optIncludes (o : Option String) (pat : String) : Bool :=
  match o with
  | none => false
  | some s => strIncludes s pat

/-- The JavaScript idiom a || b on an optional string with a string
default: undefined and the empty string fall through to the default. -/
def jsOrStr (a : Option String) (b : String) : String :=
  match a with
  | none => b
  | some s => if s == "" then b else s

/-- The JavaScript String.trim: drop whitespace from both ends. -/
def jsTrim (s : String) : String :=
  String.mk (((s.data.dropWhile Char.isWhitespace).reverse.dropWhile Char.isWhitespace).reverse)

/-- The regular-expression test lastSync.match against an ISO date prefix:
four digits, a hyphen, two digits, a hyphen, two digits, anchored at the
start of the string. -/
def isoDateLike (s : String) : Bool :=
  match s.data with
  | a :: b :: c :: d :: h1 :: e :: f :: h2 :: g :: k :: _ =>
    a.isDigit && b.isDigit && c.isDigit && d.isDigit && (h1 == '-') &&
    e.isDigit && f.isDigit && (h2 == '-') && g.isDigit && k.isDigit
  | _ => false

/-- Captured logs of a finished subprocess; stdout and stderr may be
undefined in the sandbox API. -/
structure ProcLogs where
  stdout : Option String
  stderr : Option String
deriving DecidableEq

/-- The R2 credential bindings read by syncToR2; each may be unset. -/
structure R2Env where
  R2_ACCESS_KEY_ID : Option String
  R2_SECRET_ACCESS_KEY : Option String
  CF_ACCOUNT_ID : Option String
deriving DecidableEq

/-- Result record returned by syncToR2 (sync.ts). -/
structure SyncResult where
  success : Bool
  lastSync : Option String
  error : Option String
  details : Option String
deriving DecidableEq

/-- External actions syncToR2 can start, in program order: the R2 mount,
the source sanity-check subprocess, the rsync mirror subprocess (which also
writes the marker), and the marker re-read subprocess. -/
inductive SyncAction where
  | mount
  | checkSource
  | mirror
  | readMarker
deriving DecidableEq

/-- Outcomes of the external world as syncToR2 observes them: whether the
mount succeeded, and for each subprocess either a thrown error or its
captured logs. -/
structure SandboxRun where
  mountResult : Bool
  checkOutcome : Except String ProcLogs
  mirrorOutcome : Except String ProcLogs
  markerOutcome : Except String ProcLogs

/-- The fixed details text of the sanity-check abort in sync.ts. -/
def abortDetails : String :=
  "The local config directory is missing critical files. This could indicate corruption or an incomplete setup."

/-- Shallow embedding of syncToR2 (src/gateway/sync.ts, lines 39-104).
Returns the SyncResult together with the trace of external actions started,
in order.  The credential guard models the JavaScript falsy test on each
binding; the sanity check requires the captured stdout to contain ok; the
final branch trims the re-read marker stdout and requires it to be truthy
and to match the ISO date prefix pattern. -/
def syncToR2 (env : R2Env) (sb : SandboxRun) : SyncResult × List SyncAction :=
  if !truthy env.R2_ACCESS_KEY_ID || !truthy env.R2_SECRET_ACCESS_KEY || !truthy env.CF_ACCOUNT_ID then
    (⟨false, none, some "R2 storage is not configured", none⟩, [])
  else if !sb.mountResult then
    (⟨false, none, some "Failed to mount R2 storage", none⟩, [.mount])
  else
    match sb.checkOutcome with
    | .error e =>
      (⟨false, none, some "Failed to verify source files", some e⟩, [.mount, .checkSource])
    | .ok checkLogs =>
      if !optIncludes checkLogs.stdout "ok" then
        (⟨false, none, some "Sync aborted: source missing clawdbot.json", some abortDetails⟩,
         [.mount, .checkSource])
      else
        match sb.mirrorOutcome with
        | .error e =>
          (⟨false, none, some "Sync error", some e⟩, [.mount, .checkSource, .mirror])
        | .ok mirrorLogs =>
          match sb.markerOutcome with
          | .error e =>
            (⟨false, none, some "Sync error", some e⟩,
             [.mount, .checkSource, .mirror, .readMarker])
          | .ok tsLogs =>
            let lastSync := tsLogs.stdout.map jsTrim
            match lastSync with
            | some t =>
              if !(t == "") && isoDateLike t then
                (⟨true, some t, none, none⟩, [.mount, .checkSource, .mirror, .readMarker])
              else
                (⟨false, none, some "Sync failed",
                  some (jsOrStr mirrorLogs.stderr (jsOrStr mirrorLogs.stdout "No timestamp file created"))⟩,
                 [.mount, .checkSource, .mirror, .readMarker])
            | none =>
              (⟨false, none, some "Sync failed",
                some (jsOrStr mirrorLogs.stderr (jsOrStr mirrorLogs.stdout "No timestamp file created"))⟩,
               [.mount, .checkSource, .mirror, .readMarker])

/-- Content of the durable mount, as a list of file-name and content pairs. -/
def Durable := List (String × String)

/-- Effect of each action started by syncToR2 on the durable content.
Only the mirror subprocess (rsync with delete reconciliation plus the
marker write) writes under the mount path; mounting, the source sanity
check (a read-only file test) and the marker re-read leave the durable
content unchanged. -/
def durableStep (mirrored : Durable) : SyncAction → Durable → Durable
  | .mirror, _ => mirrored
  | _, d => d

/-- Run a trace of sync actions over an initial durable content. -/
def runDurable (mirrored : Durable) (trace : List SyncAction) (d : Durable) : Durable :=
  trace.foldl (fun acc a => durableStep mirrored a acc) d

/-- HTTP status chosen by the manual sync trigger route (part_000, lines
260-279): success maps to 200, a failure whose error text contains the
phrase not configured maps to 400, every other failure maps to 500. -/
def storageSyncStatus (res : SyncResult) : Nat :=
  if res.success then 200
  else if optIncludes res.error "not configured" then 400
  else 500

/-- C1: when syncToR2 reaches the source sanity check and the check
subprocess stdout does not contain ok, the call returns failure with the
error Sync aborted: source missing clawdbot.json, the action trace stops
at the sanity check so the rsync mirror subprocess is never started, and
therefore the durable content is unchanged by the run. -/
theorem syncToR2_aborts_on_missing_source
    (env : R2Env) (sb : SandboxRun) (logs : ProcLogs) (mirrored d0 : Durable)
    (hA : truthy env.R2_ACCESS_KEY_ID = true)
    (hB : truthy env.R2_SECRET_ACCESS_KEY = true)
    (hC : truthy env.CF_ACCOUNT_ID = true)
    (hM : sb.mountResult = true)
    (hCheck : sb.checkOutcome = .ok logs)
    (hOk : optIncludes logs.stdout "ok" = false) :
    (syncToR2 env sb).1 =
      ⟨false, none, some "Sync aborted: source missing clawdbot.json", some abortDetails⟩
    ∧ (syncToR2 env sb).2 = [.mount, .checkSource]
    ∧ SyncAction.mirror ∉ (syncToR2 env sb).2
    ∧ runDurable mirrored (syncToR2 env sb).2 d0 = d0 := by
  simp [syncToR2, hA, hB, hC, hM, hCheck, hOk, runDurable, durableStep]

/-- Witness for C1 at a concrete input: all credentials set, mount
succeeded, the check subprocess printed nothing, an arbitrary concrete
durable content. -/
theorem syncToR2_aborts_on_missing_source_witness :
    (syncToR2 ⟨some "k", some "s", some "a"⟩
        ⟨true, .ok ⟨some "", none⟩, .ok ⟨none, none⟩, .ok ⟨none, none⟩⟩).1 =
      ⟨false, none, some "Sync aborted: source missing clawdbot.json", some abortDetails⟩
    ∧ runDurable [("x", "old")]
        (syncToR2 ⟨some "k", some "s", some "a"⟩
          ⟨true, .ok ⟨some "", none⟩, .ok ⟨none, none⟩, .ok ⟨none, none⟩⟩).2
        [("conf", "good")] = [("conf", "good")] := by
  have h := syncToR2_aborts_on_missing_source ⟨some "k", some "s", some "a"⟩
    ⟨true, .ok ⟨some "", none⟩, .ok ⟨none, none⟩, .ok ⟨none, none⟩⟩ ⟨some "", none⟩
    [("x", "old")] [("conf", "good")]
    (by decide) (by decide) (by decide) rfl rfl (by decide)
  exact ⟨h.1, h.2.2.2⟩

/-- C2: once syncToR2 reaches the mirror step and no subprocess throws,
the call succeeds exactly when the trimmed marker content re-read at the
destination is non-empty and starts with an ISO date pattern; a passing
marker yields success with that content as lastSync, and a failing marker
yields the error Sync failed with the mirror subprocess logs as details,
even though the mirror subprocess itself reported no error. -/
theorem syncToR2_marker_decides_success
    (env : R2Env) (sb : SandboxRun) (checkLogs mirrorLogs tsLogs : ProcLogs)
    (hA : truthy env.R2_ACCESS_KEY_ID = true)
    (hB : truthy env.R2_SECRET_ACCESS_KEY = true)
    (hC : truthy env.CF_ACCOUNT_ID = true)
    (hM : sb.mountResult = true)
    (hCheck : sb.checkOutcome = .ok checkLogs)
    (hOk : optIncludes checkLogs.stdout "ok" = true)
    (hMirror : sb.mirrorOutcome = .ok mirrorLogs)
    (hMarker : sb.markerOutcome = .ok tsLogs) :
    ((syncToR2 env sb).1.success = true ↔
      ∃ t, tsLogs.stdout.map jsTrim = some t ∧ ¬t = "" ∧ isoDateLike t = true)
    ∧ (∀ t, tsLogs.stdout.map jsTrim = some t → ¬t = "" → isoDateLike t = true →
        (syncToR2 env sb).1 = ⟨true, some t, none, none⟩)
    ∧ ((syncToR2 env sb).1.success = false →
        (syncToR2 env sb).1 = ⟨false, none, some "Sync failed",
          some (jsOrStr mirrorLogs.stderr (jsOrStr mirrorLogs.stdout "No timestamp file created"))⟩) := by
  obtain ⟨so, se⟩ := tsLogs
  cases so with
  | none =>
    simp [syncToR2, hA, hB, hC, hM, hCheck, hOk, hMirror, hMarker]
  | some s =>
    by_cases h1 : jsTrim s = ""
    · simp [syncToR2, hA, hB, hC, hM, hCheck, hOk, hMirror, hMarker, h1]
    · by_cases h2 : isoDateLike (jsTrim s)
      · simp [syncToR2, hA, hB, hC, hM, hCheck, hOk, hMirror, hMarker, h1, h2]
      · simp [syncToR2, hA, hB, hC, hM, hCheck, hOk, hMirror, hMarker, h1, h2]

/-- Witness for C2 at a concrete input: the marker re-read returns an
ISO timestamp with a trailing newline, and the call succeeds with the
trimmed timestamp as lastSync. -/
theorem syncToR2_marker_decides_success_witness :
    (syncToR2 ⟨some "k", some "s", some "a"⟩
        ⟨true, .ok ⟨some "ok", none⟩, .ok ⟨none, none⟩,
         .ok ⟨some "2025-01-02T03:04:05+00:00\n", none⟩⟩).1 =
      ⟨true, some "2025-01-02T03:04:05+00:00", none, none⟩ := by
  have h := syncToR2_marker_decides_success ⟨some "k", some "s", some "a"⟩
    ⟨true, .ok ⟨some "ok", none⟩, .ok ⟨none, none⟩,
     .ok ⟨some "2025-01-02T03:04:05+00:00\n", none⟩⟩
    ⟨some "ok", none⟩ ⟨none, none⟩ ⟨some "2025-01-02T03:04:05+00:00\n", none⟩
    (by decide) (by decide) (by decide) rfl rfl (by decide) rfl rfl
  exact h.2.1 "2025-01-02T03:04:05+00:00" (by decide) (by decide) (by decide)

/-- C3: with any required credential absent, syncToR2 returns the error
R2 storage is not configured with an empty action trace, so no mount or
mirror action is started; and the sync trigger route maps a failure whose
error text contains not configured to status 400 and every other failure
to status 500 — in particular the unconfigured result maps to 400. -/
theorem syncToR2_not_configured
    (env : R2Env) (sb : SandboxRun) (res : SyncResult)
    (hAbsent : env.R2_ACCESS_KEY_ID = none ∨ env.R2_SECRET_ACCESS_KEY = none ∨
      env.CF_ACCOUNT_ID = none) :
    syncToR2 env sb = (⟨false, none, some "R2 storage is not configured", none⟩, [])
    ∧ (res.success = false → optIncludes res.error "not configured" = true →
        storageSyncStatus res = 400)
    ∧ (res.success = false → optIncludes res.error "not configured" = false →
        storageSyncStatus res = 500)
    ∧ storageSyncStatus (syncToR2 env sb).1 = 400 := by
  have hfail : syncToR2 env sb =
      (⟨false, none, some "R2 storage is not configured", none⟩, []) := by
    rcases hAbsent with h | h | h <;> simp [syncToR2, truthy, h]
  refine ⟨hfail, ?_, ?_, ?_⟩
  · intro h1 h2; simp [storageSyncStatus, h1, h2]
  · intro h1 h2; simp [storageSyncStatus, h1, h2]
  · rw [hfail]; decide

/-- Witness for C3 at a concrete input: the account id is absent and the
other credentials are present; a concrete unrelated failure result maps
to status 500. -/
theorem syncToR2_not_configured_witness :
    syncToR2 ⟨some "k", some "s", none⟩
        ⟨true, .ok ⟨some "ok", none⟩, .ok ⟨none, none⟩, .ok ⟨none, none⟩⟩ =
      (⟨false, none, some "R2 storage is not configured", none⟩, [])
    ∧ storageSyncStatus ⟨false, none, some "Sync failed", none⟩ = 500
    ∧ storageSyncStatus
        (syncToR2 ⟨some "k", some "s", none⟩
          ⟨true, .ok ⟨some "ok", none⟩, .ok ⟨none, none⟩, .ok ⟨none, none⟩⟩).1 = 400 := by
  have h := syncToR2_not_configured ⟨some "k", some "s", none⟩
    ⟨true, .ok ⟨some "ok", none⟩, .ok ⟨none, none⟩, .ok ⟨none, none⟩⟩
    ⟨false, none, some "Sync failed", none⟩ (Or.inr (Or.inr rfl))
  exact ⟨h.1, h.2.2.1 rfl (by decide), h.2.2.2⟩

/-- The JavaScript String.toLowerCase, modelled characterwise. -/
def lowerStr (s : String) : String :=
  String.mk (s.data.map Char.toLower)

/-- Outcome of one CLI helper invocation as a handler observes it: the
subprocess machinery threw, or the process finished polling with captured
logs and an optional exit code. -/
inductive CliOutcome where
  | thrown (msg : String)
  | completed (stdout stderr : Option String) (exitCode : Option Int)
deriving DecidableEq

/-- Response of the single-device approval route. -/
inductive ApproveRouteResult where
  | badRequest (error : String)
  | ok (success : Bool) (requestId : String) (message : String) (stdout stderr : String)
  | serverError (error : String)
deriving DecidableEq

/-- Shallow embedding of the single-device approval route (part_000,
lines 113-147): a missing request id is a 400; a thrown subprocess is a
500; otherwise success is decided by the lowercased stdout containing the
keyword approved, ORed with the exit code equalling zero. -/
def approveHandler (requestId : String) (outcome : CliOutcome) : ApproveRouteResult :=
  if requestId == "" then .badRequest "requestId is required"
  else
    match outcome with
    | .thrown msg => .serverError msg
    | .completed so se ec =>
      let stdout := jsOrStr so ""
      let stderr := jsOrStr se ""
      let success := strIncludes (lowerStr stdout) "approved" || (ec == some 0)
      .ok success requestId
        (if success then "Device approved" else "Approval may have failed")
        stdout stderr

/-- C4: for a single-device approval whose subprocess completed, the
reported success is exactly the OR of the two signals: lowercased stdout
contains approved, or the exit code equals zero; in particular stdout
Approved device X with exit code 1 still reports success. -/
theorem approve_success_or_policy
    (requestId : String) (so se : Option String) (ec : Option Int)
    (hid : ¬requestId = "") :
    approveHandler requestId (.completed so se ec) =
      .ok (strIncludes (lowerStr (jsOrStr so "")) "approved" || (ec == some 0)) requestId
        (if strIncludes (lowerStr (jsOrStr so "")) "approved" || (ec == some 0) then
          "Device approved" else "Approval may have failed")
        (jsOrStr so "") (jsOrStr se "")
    ∧ ((strIncludes (lowerStr (jsOrStr so "")) "approved" || (ec == some 0)) = true ↔
        (strIncludes (lowerStr (jsOrStr so "")) "approved" = true ∨ ec = some 0))
    ∧ approveHandler "X" (.completed (some "Approved device X") (some "") (some 1)) =
        .ok true "X" "Device approved" "Approved device X" "" := by
  refine ⟨?_, by simp, by decide⟩
  simp [approveHandler, hid]

/-- Witness for C4 at the concrete input of the claim: request id X,
stdout Approved device X, empty stderr, exit code 1. -/
theorem approve_success_or_policy_witness :
    approveHandler "X" (.completed (some "Approved device X") (some "") (some 1)) =
      .ok true "X" "Device approved" "Approved device X" "" :=
  (approve_success_or_policy "X" (some "Approved device X") (some "") (some 1)
    (by decide)).2.2

/-- Index of the first occurrence of a character in a list. -/
def firstIdxOf (c : Char) (l : List Char) : Option Nat :=
  l.findIdx? (· == c)

/-- Index of the last occurrence of a character in a list. -/
def lastIdxOf (c : Char) (l : List Char) : Option Nat :=
  (l.reverse.findIdx? (· == c)).map (fun i => l.length - 1 - i)

/-- The greedy brace-delimited JSON extraction used by the device routes:
the regular expression matches from the first opening brace through the
last closing brace, provided that closing brace comes later; with no such
pair there is no match. -/
def jsonCandidate (s : String) : Option String :=
  match firstIdxOf '{' s.data, lastIdxOf '}' s.data with
  | some i, some j =>
    if i < j then some (String.mk ((s.data.drop i).take (j - i + 1))) else none
  | _, _ => none

/-- The fallback body of the device-listing route: empty pending and
paired lists, the raw stdout and stderr, and an optional parse-error
marker. -/
structure DeviceFallback where
  pending : List String
  paired : List String
  raw : Option String
  stderrText : Option String
  parseErr : Option String
deriving DecidableEq

/-- Response of the device-listing route: either the parsed JSON payload
passed through, or a fallback body. -/
inductive DevicesResp (α : Type) where
  | payload (data : α)
  | fallback (resp : DeviceFallback)
deriving DecidableEq

/-- Shallow embedding of the device-listing route (part_000, lines
65-110), after the CLI logs are captured: extract a brace-delimited JSON
candidate from stdout; with no candidate, return the raw fallback without
a parse-error marker; with a candidate that fails to decode (the model of
JSON.parse throwing), return the fallback with the parse-error marker;
with a candidate that decodes, pass the payload through.  The function is
total, so the parse path never propagates a thrown failure. -/
def devicesHandler {α : Type} (jsonParse : String → Option α)
    (stdout stderr : String) : DevicesResp α :=
  match jsonCandidate stdout with
  | some cand =>
    match jsonParse cand with
    | some data => .payload data
    | none => .fallback ⟨[], [], some stdout, some stderr, some "Failed to parse CLI output"⟩
  | none => .fallback ⟨[], [], some stdout, some stderr, none⟩

/-- The parse-error marker carried by a device-listing response. -/
def respParseErr {α : Type} : DevicesResp α → Option String
  | .payload _ => none
  | .fallback r => r.parseErr

/-- The malformed stdout named by the claim: a log line followed by an
opening brace that is never closed. -/
def malformedStdout : String := "log line\n\x7bnot valid json"

/-- C5 counterexample: the claim asserts that every stdout that does not
decode as valid JSON yields a response with the parse-error marker set;
at the concrete stdout of the claim (no closing brace, so the greedy
brace extraction finds no candidate and the decoder is never consulted)
the handler returns the fallback with no parse-error marker. -/
theorem devices_parse_marker_missing :
    devicesHandler (fun _ => (none : Option Unit)) malformedStdout "" =
      .fallback ⟨[], [], some malformedStdout, some "", none⟩
    ∧ respParseErr (devicesHandler (fun _ => (none : Option Unit)) malformedStdout "") =
        none := by
  exact ⟨by decide, by decide⟩

/-- C5 amended: stdout that fails to decode yields an empty listing with
the raw text preserved and never a thrown failure; the parse-error marker
is set exactly when a brace-delimited candidate was found and failed to
decode, and is absent when stdout holds no such candidate. -/
theorem devices_parse_fallback {α : Type} (jsonParse : String → Option α)
    (stdout stderr : String) :
    (jsonCandidate stdout = none →
      devicesHandler jsonParse stdout stderr =
        .fallback ⟨[], [], some stdout, some stderr, none⟩)
    ∧ (∀ cand, jsonCandidate stdout = some cand → jsonParse cand = none →
      devicesHandler jsonParse stdout stderr =
        .fallback ⟨[], [], some stdout, some stderr, some "Failed to parse CLI output"⟩)
    ∧ (∀ cand data, jsonCandidate stdout = some cand → jsonParse cand = some data →
      devicesHandler jsonParse stdout stderr = .payload data) := by
  refine ⟨?_, ?_, ?_⟩
  · intro h; simp [devicesHandler, h]
  · intro cand h hp; simp [devicesHandler, h, hp]
  · intro cand data h hp; simp [devicesHandler, h, hp]

/-- Witness for C5 amended at concrete inputs: a stdout with a candidate
that fails to decode gets the parse-error marker, and the stdout of the
claim, with no candidate, does not. -/
theorem devices_parse_fallback_witness :
    devicesHandler (fun _ => (none : Option Unit)) "noise \x7bbad\x7d tail" "e" =
      .fallback ⟨[], [], some "noise \x7bbad\x7d tail", some "e",
        some "Failed to parse CLI output"⟩
    ∧ devicesHandler (fun _ => (none : Option Unit)) "no braces here" "e" =
      .fallback ⟨[], [], some "no braces here", some "e", none⟩ := by
  refine ⟨?_, ?_⟩
  · exact (devices_parse_fallback (fun _ => (none : Option Unit)) "noise \x7bbad\x7d tail"
      "e").2.1 "\x7bbad\x7d" (by decide) rfl
  · exact (devices_parse_fallback (fun _ => (none : Option Unit)) "no braces here"
      "e").1 (by decide)

/-- Response of the public health route. -/
structure StatusResp where
  ok : Bool
  status : String
  processId : Option String
  error : Option String
deriving DecidableEq

/-- Shallow embedding of the public health route (part_000, lines 34-54):
the process lookup either throws, finds nothing, or finds a process id;
a found process is then probed on the service port within a timeout. -/
def statusHandler (findResult : Except String (Option String))
    (portResponds : Bool) : StatusResp :=
  match findResult with
  | .error e => ⟨false, "error", none, some e⟩
  | .ok none => ⟨false, "not_running", none, none⟩
  | .ok (some pid) =>
    if portResponds then ⟨true, "running", some pid, none⟩
    else ⟨false, "not_responding", some pid, none⟩

/-- C6: the health route returns not_running with no process id when no
matching process exists, not_responding carrying the process id when the
found process does not answer the port within the timeout, and running
with the process id when it does; the two failure statuses are distinct. -/
theorem status_route_classification (pid : String) (portResponds : Bool) :
    statusHandler (.ok none) portResponds = ⟨false, "not_running", none, none⟩
    ∧ statusHandler (.ok (some pid)) false = ⟨false, "not_responding", some pid, none⟩
    ∧ statusHandler (.ok (some pid)) true = ⟨true, "running", some pid, none⟩
    ∧ ¬("not_responding" = "not_running") :=
  ⟨rfl, rfl, rfl, by decide⟩

/-- Per-item result of the bulk approval loop. -/
structure ItemResult where
  requestId : String
  success : Bool
  error : Option String
deriving DecidableEq

/-- One device approval inside the bulk loop (part_000, lines 183-199):
a thrown subprocess becomes a failed item carrying the error; a completed
subprocess is judged by the OR of the keyword signal on the optional
stdout and the zero exit code. -/
def approveItem (id : String) : CliOutcome → ItemResult
  | .thrown msg => ⟨id, false, some msg⟩
  | .completed so _ ec =>
    ⟨id,
     (match so with
      | some s => strIncludes (lowerStr s) "approved"
      | none => false) || (ec == some 0),
     none⟩

/-- Aggregate response of the bulk approval route. -/
structure BulkResp where
  approved : List String
  failed : List ItemResult
  message : String
deriving DecidableEq

/-- Shallow embedding of the bulk approval route (part_000, lines
150-211) from the point where the pending list is known: an empty list
short-circuits; otherwise every pending device is approved in order, each
outcome converted to a per-item result, and the aggregate collects the
successful ids, the failed items, and the count message. -/
def approveAllHandler (outcomes : String → CliOutcome) (pending : List String) : BulkResp :=
  if pending.isEmpty then ⟨[], [], "No pending devices to approve"⟩
  else
    let results := pending.map (fun id => approveItem id (outcomes id))
    let approvedCount := (results.filter (fun r => r.success)).length
    ⟨(results.filter (fun r => r.success)).map (fun r => r.requestId),
     results.filter (fun r => !r.success),
     "Approved " ++ toString approvedCount ++ " of " ++ toString pending.length ++ " device(s)"⟩

/-- Concrete per-device outcomes for the example of the claim: the second
approval subprocess throws, the other two complete successfully. -/
def exampleOutcomes : String → CliOutcome
  | "id2" => .thrown "spawn failed"
  | _ => .completed (some "Approved") none (some 0)

/-- C7: in the bulk approval loop a thrown subprocess is converted into a
per-item failed entry without aborting the rest (every pending device
yields exactly one item), and the response aggregates the approved ids,
the failed items, and the message Approved k of n device(s); the concrete
three-device example with the second approval throwing produces exactly
the aggregate of the claim. -/
theorem approve_all_aggregates
    (outcomes : String → CliOutcome) (pending : List String)
    (hne : ¬pending = []) :
    (approveAllHandler outcomes pending).approved =
      ((pending.map (fun id => approveItem id (outcomes id))).filter
        (fun r => r.success)).map (fun r => r.requestId)
    ∧ (approveAllHandler outcomes pending).failed =
      (pending.map (fun id => approveItem id (outcomes id))).filter (fun r => !r.success)
    ∧ (approveAllHandler outcomes pending).message =
      "Approved " ++
        toString ((pending.map (fun id => approveItem id (outcomes id))).filter
          (fun r => r.success)).length ++
        " of " ++ toString pending.length ++ " device(s)"
    ∧ (pending.map (fun id => approveItem id (outcomes id))).length = pending.length
    ∧ (∀ id msg, id ∈ pending → outcomes id = .thrown msg →
        (⟨id, false, some msg⟩ : ItemResult) ∈ (approveAllHandler outcomes pending).failed)
    ∧ approveAllHandler exampleOutcomes ["id1", "id2", "id3"] =
        ⟨["id1", "id3"], [⟨"id2", false, some "spawn failed"⟩], "Approved 2 of 3 device(s)"⟩ := by
  cases pending with
  | nil => exact absurd rfl hne
  | cons a as =>
    refine ⟨by simp [approveAllHandler], by simp [approveAllHandler],
      by simp [approveAllHandler], by simp, ?_, by decide⟩
    intro id msg hmem hthrown
    have h1 : approveItem id (outcomes id) = ⟨id, false, some msg⟩ := by
      simp [approveItem, hthrown]
    have h2 : (⟨id, false, some msg⟩ : ItemResult) ∈
        (a :: as).map (fun i => approveItem i (outcomes i)) :=
      h1 ▸ List.mem_map_of_mem _ hmem
    have h3 : (approveAllHandler outcomes (a :: as)).failed =
        ((a :: as).map (fun i => approveItem i (outcomes i))).filter (fun r => !r.success) := by
      simp [approveAllHandler]
    rw [h3]
    exact List.mem_filter.2 ⟨h2, rfl⟩

/-- Witness for C7 at the concrete example of the claim: three pending
devices, the second approval subprocess throws. -/
theorem approve_all_aggregates_witness :
    approveAllHandler exampleOutcomes ["id1", "id2", "id3"] =
      ⟨["id1", "id3"], [⟨"id2", false, some "spawn failed"⟩], "Approved 2 of 3 device(s)"⟩
    ∧ (⟨"id2", false, some "spawn failed"⟩ : ItemResult) ∈
        (approveAllHandler exampleOutcomes ["id1", "id2", "id3"]).failed := by
  have h := approve_all_aggregates exampleOutcomes ["id1", "id2", "id3"] (by decide)
  exact ⟨h.2.2.2.2.2, h.2.2.2.2.1 "id2" "spawn failed" (by decide) rfl⟩

/-- JSON response body of the restart route. -/
structure RestartResp where
  success : Bool
  message : String
  previousProcessId : Option String
deriving DecidableEq

/-- External actions of the restart route: killing the previous process,
the fixed settle wait, and the background boot registered with waitUntil. -/
inductive RestartAction where
  | killProc (pid : String)
  | settleWait
  | boot
deriving DecidableEq

/-- Outcome of the restart route: the JSON body, or a 500 when the
process lookup throws. -/
inductive RestartRouteResult where
  | ok (resp : RestartResp)
  | serverError (error : String)
deriving DecidableEq

/-- Shallow embedding of the restart route (part_000, lines 282-317):
the process lookup either throws or yields an optional process id; an
existing process is killed (kill errors are caught and ignored) and the
settle wait runs; in every non-throwing case exactly one boot is started
in the background via waitUntil and the JSON response is produced without
awaiting it — the response takes no boot outcome as input. -/
def restartHandler (findResult : Except String (Option String)) :
    RestartRouteResult × List RestartAction :=
  match findResult with
  | .error e => (.serverError e, [])
  | .ok (some pid) =>
    (.ok ⟨true, "Gateway process killed, new instance starting...", some pid⟩,
     [.killProc pid, .settleWait, .boot])
  | .ok none =>
    (.ok ⟨true, "No existing process found, starting new instance...", none⟩, [.boot])

/-- C8: a restart request issued while no matching process exists returns
success true with no previousProcessId, and its action trace contains
exactly one boot and no kill; the response is fixed before the boot runs,
since the handler takes no boot outcome as input. -/
theorem restart_without_process :
    restartHandler (.ok none) =
      (.ok ⟨true, "No existing process found, starting new instance...", none⟩, [.boot])
    ∧ (restartHandler (.ok none)).2.count .boot = 1
    ∧ ∀ pid, RestartAction.killProc pid ∉ (restartHandler (.ok none)).2 := by
  refine ⟨rfl, by decide, ?_⟩
  intro pid
  simp [restartHandler]

/-- One underlying mount attempt as the mount tool reports it. -/
inductive MountAttempt where
  | ok
  | failAlreadyInUse
  | failOther (msg : String)
deriving DecidableEq

/-- Whether the mount path is currently an active durable-store mount,
as the local mount table reports it. -/
structure MountWorld where
  mounted : Bool
deriving DecidableEq

/-- Whether an attempt outcome is a failure other than already in use. -/
def isFailOther : MountAttempt → Bool
  | .failOther _ => true
  | _ => false

/-- Modelled from the spec: mountR2Storage, the Storage Mount Manager
(src/gateway/r2.ts is not among the provided sources).  Per the spec it
first inspects the local mount table and returns success without side
effects when the fixed mount path is already an active durable-store
mount; otherwise it issues one mount attempt with the supplied
credentials, reclassifies a failure naming the target as already in use
as success with the mount functionally present, and surfaces any other
failure verbatim.  Returns the boolean result, the world after the call,
and the number of underlying mount attempts performed. -/
def mountR2Storage (attempt : MountAttempt) (w : MountWorld) : Bool × MountWorld × Nat :=
  if w.mounted then (true, w, 0)
  else
    match attempt with
    | .ok => (true, ⟨true⟩, 1)
    | .failAlreadyInUse => (true, ⟨true⟩, 1)
    | .failOther _ => (false, w, 1)

/-- Two successive calls of mountR2Storage, threading the world, with the
per-call attempt outcomes given; returns both results, the final world,
and the total number of underlying mount attempts. -/
def mountR2StorageTwice (a1 a2 : MountAttempt) (w : MountWorld) :
    (Bool × Bool) × MountWorld × Nat :=
  let r1 := mountR2Storage a1 w
  let r2 := mountR2Storage a2 r1.2.1
  ((r1.1, r2.1), r2.2.1, r1.2.2 + r2.2.2)

/-- C9 counterexample: the claim quantifies over every credential set and
every state; when the store is not mounted and the mount attempt fails
with an error other than already in use (for instance unreachable
storage), the first of two successive calls returns failure and two
underlying attempts are performed, so the claim fails as stated. -/
theorem mount_twice_counterexample :
    ¬((mountR2StorageTwice (.failOther "transport error") (.failOther "transport error")
        ⟨false⟩).1 = (true, true)
      ∧ (mountR2StorageTwice (.failOther "transport error") (.failOther "transport error")
        ⟨false⟩).2.2 ≤ 1) := by
  decide

/-- C9 amended: provided the first call does not hit a mount failure
other than already in use (or the path is already mounted), two
successive calls perform the underlying mount at most once and both
return success; an already-mounted world returns success with no side
effects and no attempt, and an already-in-use failure is reported as
success. -/
theorem mount_twice_idempotent
    (a1 a2 : MountAttempt) (w : MountWorld)
    (h : isFailOther a1 = false ∨ w.mounted = true) :
    (mountR2StorageTwice a1 a2 w).1 = (true, true)
    ∧ (mountR2StorageTwice a1 a2 w).2.2 ≤ 1
    ∧ (w.mounted = true → mountR2Storage a1 w = (true, w, 0))
    ∧ mountR2Storage .failAlreadyInUse ⟨false⟩ = (true, ⟨true⟩, 1) := by
  obtain ⟨m⟩ := w
  cases m with
  | true => simp [mountR2Storage, mountR2StorageTwice]
  | false =>
    rcases h with h | h
    · cases a1 with
      | ok => simp [mountR2Storage, mountR2StorageTwice]
      | failAlreadyInUse => simp [mountR2Storage, mountR2StorageTwice]
      | failOther msg => exact absurd h (by simp [isFailOther])
    · exact absurd h (by simp)

/-- Witness for C9 amended at a concrete input: unmounted world, first
attempt succeeds; the second call performs no further attempt even though
its attempt outcome would fail. -/
theorem mount_twice_idempotent_witness :
    (mountR2StorageTwice .ok (.failOther "transport error") ⟨false⟩).1 = (true, true)
    ∧ (mountR2StorageTwice .ok (.failOther "transport error") ⟨false⟩).2.2 ≤ 1 := by
  have h := mount_twice_idempotent .ok (.failOther "transport error") ⟨false⟩ (Or.inl rfl)
  exact ⟨h.1, h.2.1⟩

/-- The environment bindings read by the access middleware. -/
structure AuthEnv where
  DEV_MODE : Option String
  MOLTBOT_GATEWAY_TOKEN : Option String
  CF_ACCESS_TEAM_DOMAIN : Option String
  CF_ACCESS_AUD : Option String
deriving DecidableEq

/-- The credentials carried by one request: an optional query token, an
optional header token, and an optional extracted JWT. -/
structure ReqCreds where
  queryToken : Option String
  headerToken : Option String
  jwt : Option String
deriving DecidableEq

/-- The user record the middleware attaches for downstream handlers. -/
structure AccessUser where
  email : String
  name : String
deriving DecidableEq

/-- isDevMode (part_000 auth section, lines 340-342): strict string
equality of DEV_MODE with true. -/
def isDevMode (env : AuthEnv) : Bool :=
  env.DEV_MODE == some "true"

/-- hasValidGatewayToken (part_000 auth section, lines 360-369): false
when the expected token is unset or empty, otherwise strict equality of
the query token or the header token with the expected token. -/
def hasValidGatewayToken (env : AuthEnv) (req : ReqCreds) : Bool :=
  match env.MOLTBOT_GATEWAY_TOKEN with
  | none => false
  | some tok =>
    if tok == "" then false
    else (req.queryToken == some tok) || (req.headerToken == some tok)

/-- The credential checks the middleware can perform on a request. -/
inductive AuthCheck where
  | gatewayToken
  | jwtVerify
deriving DecidableEq

/-- Decision of the middleware: invoke the downstream handler with the
given user attached, or deny with an HTTP status and error. -/
inductive AuthDecision where
  | allow (user : AccessUser)
  | deny (status : Nat) (error : String)
deriving DecidableEq

/-- Shallow embedding of the json-type access middleware returned by
createAccessMiddleware (part_000 auth section, lines 379-469): dev mode
allows unconditionally with the synthetic dev user; otherwise the
gateway-token equality check runs, then the configuration guard, the JWT
extraction, and the external verifier.  The second component records
which credential checks were performed. -/
def accessMiddleware (env : AuthEnv) (req : ReqCreds)
    (verify : String → Except String AccessUser) : AuthDecision × List AuthCheck :=
  if isDevMode env then (.allow ⟨"dev@localhost", "Dev User"⟩, [])
  else if hasValidGatewayToken env req then
    (.allow ⟨"gateway-token@cli", "CLI User"⟩, [.gatewayToken])
  else if !truthy env.CF_ACCESS_TEAM_DOMAIN || !truthy env.CF_ACCESS_AUD then
    (.deny 500 "Cloudflare Access not configured", [.gatewayToken])
  else
    match req.jwt with
    | none => (.deny 401 "Unauthorized", [.gatewayToken])
    | some jwt =>
      match verify jwt with
      | .ok payload => (.allow payload, [.gatewayToken, .jwtVerify])
      | .error _ => (.deny 401 "Unauthorized", [.gatewayToken, .jwtVerify])

/-- C10: with DEV_MODE equal to the string true, the middleware allows
every request with the synthetic dev user and performs neither the
gateway-token comparison nor the JWT verification, for every request
credential set and every verifier. -/
theorem dev_mode_bypasses_auth
    (env : AuthEnv) (req : ReqCreds) (verify : String → Except String AccessUser)
    (h : env.DEV_MODE = some "true") :
    accessMiddleware env req verify = (.allow ⟨"dev@localhost", "Dev User"⟩, [])
    ∧ AuthCheck.gatewayToken ∉ (accessMiddleware env req verify).2
    ∧ AuthCheck.jwtVerify ∉ (accessMiddleware env req verify).2 := by
  have hd : isDevMode env = true := by simp [isDevMode, h]
  simp [accessMiddleware, hd]

/-- Witness for C10 at a concrete input: dev mode on, a configured
gateway token that the request does not present, a configured Access
team and audience, a JWT present that the verifier would reject. -/
theorem dev_mode_bypasses_auth_witness :
    accessMiddleware ⟨some "true", some "secret", some "team.example", some "aud"⟩
      ⟨some "wrong", none, some "somejwt"⟩ (fun _ => .error "invalid") =
      (.allow ⟨"dev@localhost", "Dev User"⟩, []) :=
  (dev_mode_bypasses_auth ⟨some "true", some "secret", some "team.example", some "aud"⟩
    ⟨some "wrong", none, some "somejwt"⟩ (fun _ => .error "invalid") rfl).1

end Moltworker
